import Mathlib

/-!
Shallow embedding of `src/ptr-notes.cpp`: the `DrawingElement` class
hierarchy (Point, Line, Rectangle), the `Drawing` aggregate with its
raw-pointer store (`_drawing_ptrs`) and unique-pointer store
(`_drawing_u_ptrs`), and the operations `add_element_ptr`,
`add_element_u_ptr`, `render_ptrs`, `render_u_ptrs`,
`clear_drawing_ptrs`, `draw_u_ptrs` and the factory methods.

Modelling conventions:
- The closed set of concrete subclasses of the abstract base class
  `DrawingElement` is a sum type; virtual dispatch of `render()` is
  pattern matching.
- A raw pointer `DrawingElement*` is `Option Addr`: `none` is `nullptr`,
  `some a` points at heap cell `a`.  The C++ free store is an explicit
  association list `Heap`; `new` puts a cell in it, `delete` removes it.
- A `std::unique_ptr<DrawingElement>` is `Option DrawingElement`:
  `none` is the null (empty) unique pointer, `some e` owns element `e`.
- Undefined behaviour (dereferencing a null unique pointer, or a raw
  pointer whose cell is no longer allocated) makes a render run produce
  `none` instead of `some outputs`: the program has no defined output.
- Text formatting (the bare `std::endl` separator lines) is out of the
  modelled output; each semantic `std::cout` line is one `Output` value.
-/

/-- The closed set of concrete subclasses of the abstract base class
`DrawingElement` (Point, Line, Rectangle), with the integer fields each
constructor of `src/ptr-notes.cpp` stores. -/
inductive DrawingElement : Type
  | point (x y : Int)
  | line (x1 y1 x2 y2 : Int)
  | rectangle (x y w h : Int)
  deriving DecidableEq

/-- The `render()` override of each subclass: the exact line of text each
one writes to `std::cout`. -/
def DrawingElement.render : DrawingElement → String
  | .point x y => s!"Rendering a point ({x}, {y})"
  | .line x1 y1 x2 y2 => s!"Rendering a line from ({x1}, {y1}) to ({x2}, {y2})"
  | .rectangle x y w h => s!"Rendering a rectangle of dimension {w}x{h}, from ({x}, {y})"

/-- One semantic output line of the program.  `info` is a header or
informational message, `nullNotice` is the `  ** Null pointer` line of
`render_ptrs`, `elem` is the line produced by one `render()` call. -/
inductive Output : Type
  | info (msg : String)
  | nullNotice
  | elem (msg : String)
  deriving DecidableEq

/-- Number of element render lines in an output run. -/
def countElem (outs : List Output) : Nat :=
  (outs.filter fun o => match o with | Output.elem _ => true | _ => false).length

/-- Number of informational (non-element, non-null-notice) lines. -/
def countInfo (outs : List Output) : Nat :=
  (outs.filter fun o => match o with | Output.info _ => true | _ => false).length

/-- Number of `  ** Null pointer` notices in an output run. -/
def countNull (outs : List Output) : Nat :=
  (outs.filter fun o => match o with | Output.nullNotice => true | _ => false).length

/-- A heap address (identity of one `new`-allocated object). -/
abbrev Addr := Nat

/-- The C++ free store: the currently allocated `DrawingElement` objects,
keyed by address. -/
abbrev Heap := List (Addr × DrawingElement)

/-- Reading the object at an address: `some e` when the cell is live,
`none` when nothing is allocated there (a dangling pointer). -/
def lookupAddr : Heap → Addr → Option DrawingElement
  | [], _ => none
  | (b, e) :: rest, a => if b = a then some e else lookupAddr rest a

/-- `delete` of one address: the cell disappears from the free store. -/
def deleteAddr : Heap → Addr → Heap
  | [], _ => []
  | (b, e) :: rest, a => if b = a then deleteAddr rest a else (b, e) :: deleteAddr rest a

/-- Program state: the free store plus the two pointer collections of the
`Drawing` object (`_drawing_ptrs` and `_drawing_u_ptrs`).  The by-value
collection `_drawing` cannot hold any `DrawingElement` (the source keeps
its uses commented out as compile errors), so it carries no state. -/
structure ProgState : Type where
  heap : Heap
  drawing_ptrs : List (Option Addr)
  drawing_u_ptrs : List (Option DrawingElement)
  deriving DecidableEq

/-- A freshly constructed `Drawing` with an empty free store: both
pointer collections start empty. -/
def freshDrawing : ProgState :=
  { heap := [], drawing_ptrs := [], drawing_u_ptrs := [] }

/-- `Drawing::add_element_ptr`: pushes a raw pointer onto the back of
`_drawing_ptrs`. -/
def add_element_ptr (st : ProgState) (p : Option Addr) : ProgState :=
  { st with drawing_ptrs := st.drawing_ptrs ++ [p] }

/-- `Drawing::add_element_u_ptr`: the unique pointer is moved into the
back of `_drawing_u_ptrs` (`emplace_back(std::move(element_u_ptr))`).
The second component is the caller's handle after the call: C++ move
semantics leave the moved-from `unique_ptr` null, so it is `none`. -/
def add_element_u_ptr (st : ProgState) (e : Option DrawingElement) :
    ProgState × Option DrawingElement :=
  ({ st with drawing_u_ptrs := st.drawing_u_ptrs ++ [e] }, none)

/-- Runs an effect over a list; one `none` (one undefined-behaviour
step) poisons the whole run. -/
def traverseOption {α β : Type} (f : α → Option β) : List α → Option (List β)
  | [] => some []
  | a :: l => (f a).bind fun b => (traverseOption f l).map fun bs => b :: bs

/-- One iteration of the `render_ptrs` loop: a null pointer prints the
null notice; a non-null pointer is dereferenced and rendered, which is
undefined behaviour (`none`) when the cell is no longer allocated. -/
def render_ptr_slot (h : Heap) : Option Addr → Option Output
  | none => some Output.nullNotice
  | some a => (lookupAddr h a).map fun e => Output.elem e.render

/-- `Drawing::render_ptrs`: on an empty collection prints the single
empty-collection message and returns; otherwise prints the size header
and then loops over the raw pointers. -/
def render_ptrs (st : ProgState) : ProgState × Option (List Output) :=
  (st,
   if st.drawing_ptrs = [] then
     some [Output.info "Collection of pointers is empty"]
   else
     (traverseOption (render_ptr_slot st.heap) st.drawing_ptrs).map
       fun outs =>
         Output.info s!"Rendering {st.drawing_ptrs.length} elements from pointers" :: outs)

/-- One iteration of the `render_u_ptrs` loop: `elementPtr->render()`
with no null check, so a null unique pointer is dereferenced, which is
undefined behaviour (`none`). -/
def render_u_slot : Option DrawingElement → Option Output
  | none => none
  | some e => some (Output.elem e.render)

/-- `Drawing::render_u_ptrs`: always prints the size header, then loops
over the unique pointers calling `render()` on each with no null
check. -/
def render_u_ptrs (st : ProgState) : ProgState × Option (List Output) :=
  (st,
   (traverseOption render_u_slot st.drawing_u_ptrs).map
     fun outs =>
       Output.info s!"Rendering {st.drawing_u_ptrs.length} elements from unique pointers" :: outs)

/-- One iteration of the `clear_drawing_ptrs` loop: `delete ptr`
(deleting a null pointer is a no-op). -/
def delete_ptr (h : Heap) : Option Addr → Heap
  | none => h
  | some a => deleteAddr h a

/-- `Drawing::clear_drawing_ptrs`: prints the deleting message, calls
`delete` on every stored raw pointer, then empties `_drawing_ptrs`. -/
def clear_drawing_ptrs (st : ProgState) : ProgState × List Output :=
  ({ st with
      heap := st.drawing_ptrs.foldl delete_ptr st.heap,
      drawing_ptrs := [] },
   [Output.info "* Deleting pointers"])

/-- Factory `Drawing::getPointPtr`: a unique pointer owning a fresh
`Point`. -/
def getPointPtr (x y : Int) : Option DrawingElement :=
  some (DrawingElement.point x y)

/-- Factory `Drawing::getLinePtr`: a unique pointer owning a fresh
`Line`. -/
def getLinePtr (x1 y1 x2 y2 : Int) : Option DrawingElement :=
  some (DrawingElement.line x1 y1 x2 y2)

/-- Factory `Drawing::getRectanglePtr`: a unique pointer owning a fresh
`Rectangle`. -/
def getRectanglePtr (x y w h : Int) : Option DrawingElement :=
  some (DrawingElement.rectangle x y w h)

/-- `Drawing::draw_u_ptrs`: clears `_drawing_u_ptrs` and emplaces a
`Point{10,15}`, then the three factory results `getPointPtr(35,22)`,
`getLinePtr(55,122,234,556)`, `getRectanglePtr(3,194,34,200)`. -/
def draw_u_ptrs (st : ProgState) : ProgState :=
  { st with
      drawing_u_ptrs :=
        [some (DrawingElement.point 10 15),
         getPointPtr 35 22,
         getLinePtr 55 122 234 556,
         getRectanglePtr 3 194 34 200] }

/-- A whole sequence of `add_element_u_ptr` calls, one per element, each
handle freshly owning its element. -/
def add_all (st : ProgState) : List DrawingElement → ProgState
  | [] => st
  | e :: es => add_all (add_element_u_ptr st (some e)).1 es

/-! ### Helper lemmas -/

theorem traverseOption_append {α β : Type} (f : α → Option β)
    (l1 l2 : List α) (b1 b2 : List β)
    (h1 : traverseOption f l1 = some b1) (h2 : traverseOption f l2 = some b2) :
    traverseOption f (l1 ++ l2) = some (b1 ++ b2) := by
  induction l1 generalizing b1 with
  | nil =>
    simp [traverseOption] at h1
    subst h1
    simpa using h2
  | cons a l ih =>
    simp only [traverseOption] at h1
    cases hfa : f a with
    | none => rw [hfa] at h1; simp at h1
    | some b =>
      rw [hfa] at h1
      cases hl : traverseOption f l with
      | none => rw [hl] at h1; simp at h1
      | some bs =>
        rw [hl] at h1
        simp at h1
        subst h1
        rw [List.cons_append]
        simp [traverseOption, hfa, ih bs hl]

theorem traverse_u_map_some (es : List DrawingElement) :
    traverseOption render_u_slot (es.map some) =
      some (es.map fun e => Output.elem e.render) := by
  induction es with
  | nil => rfl
  | cons e es ih => simp [traverseOption, render_u_slot, ih]

theorem traverse_u_none (l : List (Option DrawingElement)) (h : none ∈ l) :
    traverseOption render_u_slot l = none := by
  induction l with
  | nil => simp at h
  | cons a l ih =>
    rcases List.mem_cons.mp h with ha | hl
    · subst ha; rfl
    · cases hfa : render_u_slot a <;>
        simp [traverseOption, hfa, ih hl]

theorem traverse_ptr_map_some (h : Heap) (ps : List Addr) (ss : List DrawingElement)
    (hps : traverseOption (lookupAddr h) ps = some ss) :
    traverseOption (render_ptr_slot h) (ps.map some) =
      some (ss.map fun e => Output.elem e.render) := by
  induction ps generalizing ss with
  | nil =>
    simp [traverseOption] at hps
    subst hps
    rfl
  | cons a ps ih =>
    simp only [traverseOption] at hps
    cases hla : lookupAddr h a with
    | none => rw [hla] at hps; simp at hps
    | some e =>
      rw [hla] at hps
      cases hl : traverseOption (lookupAddr h) ps with
      | none => rw [hl] at hps; simp at hps
      | some es =>
        rw [hl] at hps
        simp at hps
        subst hps
        simp [traverseOption, render_ptr_slot, hla, ih es hl]

theorem add_all_spec (st : ProgState) (es : List DrawingElement) :
    add_all st es =
      { st with drawing_u_ptrs := st.drawing_u_ptrs ++ es.map some } := by
  induction es generalizing st with
  | nil => simp [add_all]
  | cons e es ih =>
    simp [add_all, add_element_u_ptr, ih, List.append_assoc]

theorem lookup_deleteAddr_self (h : Heap) (a : Addr) :
    lookupAddr (deleteAddr h a) a = none := by
  induction h with
  | nil => rfl
  | cons c rest ih =>
    obtain ⟨b, e⟩ := c
    by_cases hba : b = a
    · simp [deleteAddr, hba, ih]
    · simp [deleteAddr, hba, lookupAddr, ih]

theorem lookup_deleteAddr_none (h : Heap) (a b : Addr)
    (hn : lookupAddr h a = none) : lookupAddr (deleteAddr h b) a = none := by
  induction h with
  | nil => rfl
  | cons c rest ih =>
    obtain ⟨c1, e⟩ := c
    simp only [lookupAddr] at hn
    by_cases hca : c1 = a
    · simp [hca] at hn
    · rw [if_neg hca] at hn
      by_cases hcb : c1 = b
      · simp [deleteAddr, hcb, ih hn]
      · simp [deleteAddr, hcb, lookupAddr, hca, ih hn]

theorem lookup_delete_ptr_none (h : Heap) (p : Option Addr) (a : Addr)
    (hn : lookupAddr h a = none) : lookupAddr (delete_ptr h p) a = none := by
  cases p with
  | none => exact hn
  | some b => exact lookup_deleteAddr_none h a b hn

theorem foldl_delete_preserves_none (ps : List (Option Addr)) (h : Heap) (a : Addr)
    (hn : lookupAddr h a = none) :
    lookupAddr (ps.foldl delete_ptr h) a = none := by
  induction ps generalizing h with
  | nil => exact hn
  | cons p ps ih =>
    exact ih (delete_ptr h p) (lookup_delete_ptr_none h p a hn)

theorem foldl_delete_freed (ps : List (Option Addr)) (h : Heap) (a : Addr)
    (ha : some a ∈ ps) : lookupAddr (ps.foldl delete_ptr h) a = none := by
  induction ps generalizing h with
  | nil => simp at ha
  | cons p ps ih =>
    rcases List.mem_cons.mp ha with hp | hp
    · subst hp
      exact foldl_delete_preserves_none ps (deleteAddr h a) a
        (lookup_deleteAddr_self h a)
    · exact ih (delete_ptr h p) hp

theorem countElem_map_render (es : List DrawingElement) :
    countElem (es.map fun e => Output.elem e.render) = es.length := by
  induction es with
  | nil => rfl
  | cons e es ih => simp [countElem, List.filter] at ih ⊢; omega

theorem countNull_map_render (es : List DrawingElement) :
    countNull (es.map fun e => Output.elem e.render) = 0 := by
  induction es with
  | nil => rfl
  | cons e es ih => simp [countNull, List.filter] at ih ⊢

theorem countNull_append (l1 l2 : List Output) :
    countNull (l1 ++ l2) = countNull l1 + countNull l2 := by
  simp [countNull, List.filter_append]

theorem countNull_cons_notice (l : List Output) :
    countNull (Output.nullNotice :: l) = countNull l + 1 := by
  simp [countNull, List.filter]

/-! ### Claims -/

/-- C1: for every sequence of `add_element_u_ptr` calls into a fresh owned
store, a subsequent `render_u_ptrs` emits exactly one render output per
stored element, in exactly insertion order, and the number of element
outputs equals the number of adds performed. -/
theorem render_all_insertion_order (st : ProgState) (es : List DrawingElement)
    (h : st.drawing_u_ptrs = []) :
    (render_u_ptrs (add_all st es)).2 =
      some (Output.info s!"Rendering {es.length} elements from unique pointers" ::
            (es.map fun e => Output.elem e.render)) ∧
    countElem (es.map fun e => Output.elem e.render) = es.length := by
  refine ⟨?_, countElem_map_render es⟩
  have h1 : (add_all st es).drawing_u_ptrs = es.map some := by
    rw [add_all_spec]
    simp [h]
  simp [render_u_ptrs, h1, traverse_u_map_some]

/-- Witness for C1 at one concrete add sequence. -/
theorem render_all_insertion_order_witness :
    (render_u_ptrs (add_all freshDrawing [DrawingElement.point 1 2])).2 =
      some (Output.info "Rendering 1 elements from unique pointers" ::
            ([DrawingElement.point 1 2].map fun e => Output.elem e.render)) ∧
    countElem ([DrawingElement.point 1 2].map fun e => Output.elem e.render) = 1 :=
  render_all_insertion_order freshDrawing [DrawingElement.point 1 2] rfl

/-- C2: on an owned store that is empty (freshly constructed, or emptied
again), `render_u_ptrs` emits exactly one informational message, zero
element outputs, and returns with a defined (error-free) result. -/
theorem render_all_empty_store (st : ProgState) (h : st.drawing_u_ptrs = []) :
    (render_u_ptrs st).2 =
      some [Output.info "Rendering 0 elements from unique pointers"] ∧
    countInfo [Output.info "Rendering 0 elements from unique pointers"] = 1 ∧
    countElem [Output.info "Rendering 0 elements from unique pointers"] = 0 := by
  refine ⟨?_, rfl, rfl⟩
  simp only [render_u_ptrs, h, traverseOption]
  rfl

/-- Witness for C2 at the freshly constructed drawing. -/
theorem render_all_empty_store_witness :
    (render_u_ptrs freshDrawing).2 =
      some [Output.info "Rendering 0 elements from unique pointers"] ∧
    countInfo [Output.info "Rendering 0 elements from unique pointers"] = 1 ∧
    countElem [Output.info "Rendering 0 elements from unique pointers"] = 0 :=
  render_all_empty_store freshDrawing rfl

/-- C7: adding Point(10,15), Line(25,25,50,100), Rectangle(50,50,100,75)
to a fresh owned store in that order and rendering yields exactly three
element outputs, in that order, carrying exactly those coordinates. -/
theorem render_all_end_to_end :
    (render_u_ptrs (add_all freshDrawing
        [DrawingElement.point 10 15,
         DrawingElement.line 25 25 50 100,
         DrawingElement.rectangle 50 50 100 75])).2 =
      some [Output.info "Rendering 3 elements from unique pointers",
            Output.elem "Rendering a point (10, 15)",
            Output.elem "Rendering a line from (25, 25) to (50, 100)",
            Output.elem "Rendering a rectangle of dimension 100x75, from (50, 50)"] := by
  rfl

/-- C3: for every borrowed-reference store holding live references with a
null reference at some position, `render_ptrs` emits exactly one null
notice for that slot and keeps rendering every remaining element in
order, rather than aborting the traversal. -/
theorem render_refs_null_skip (h : Heap) (us : List (Option DrawingElement))
    (pre suf : List Addr) (s1 s2 : List DrawingElement)
    (h1 : traverseOption (lookupAddr h) pre = some s1)
    (h2 : traverseOption (lookupAddr h) suf = some s2) :
    (render_ptrs ⟨h, pre.map some ++ none :: suf.map some, us⟩).2 =
      some (Output.info
              s!"Rendering {pre.length + (suf.length + 1)} elements from pointers" ::
            ((s1.map fun e => Output.elem e.render) ++
             Output.nullNotice :: (s2.map fun e => Output.elem e.render))) ∧
    countNull ((s1.map fun e => Output.elem e.render) ++
               Output.nullNotice :: (s2.map fun e => Output.elem e.render)) = 1 := by
  constructor
  · have t1 := traverse_ptr_map_some h pre s1 h1
    have t2 := traverse_ptr_map_some h suf s2 h2
    have t2' : traverseOption (render_ptr_slot h) (none :: suf.map some) =
        some (Output.nullNotice :: (s2.map fun e => Output.elem e.render)) := by
      simp [traverseOption, render_ptr_slot, t2]
    have tall := traverseOption_append (render_ptr_slot h) (pre.map some)
      (none :: suf.map some) _ _ t1 t2'
    simp [render_ptrs, tall]
  · rw [countNull_append, countNull_map_render, countNull_cons_notice,
      countNull_map_render]

/-- Witness for C3 at one concrete heap and store. -/
theorem render_refs_null_skip_witness :
    (render_ptrs ⟨[(0, DrawingElement.point 1 2), (1, DrawingElement.line 1 2 3 4)],
        [some 0, none, some 1], []⟩).2 =
      some [Output.info "Rendering 3 elements from pointers",
            Output.elem "Rendering a point (1, 2)",
            Output.nullNotice,
            Output.elem "Rendering a line from (1, 2) to (3, 4)"] ∧
    countNull [Output.elem "Rendering a point (1, 2)", Output.nullNotice,
               Output.elem "Rendering a line from (1, 2) to (3, 4)"] = 1 :=
  render_refs_null_skip
    [(0, DrawingElement.point 1 2), (1, DrawingElement.line 1 2 3 4)] []
    [0] [1] [DrawingElement.point 1 2] [DrawingElement.line 1 2 3 4] rfl rfl

/-- C4 counterexample: `add_element_u_ptr` does accept a null handle, but
`render_u_ptrs` on a store holding that null handle has no defined
output (`none`): the null unique pointer is dereferenced at render time,
it is neither skipped nor raised on. -/
theorem null_handle_render_counterexample :
    (add_element_u_ptr freshDrawing none).1 = (⟨[], [], [none]⟩ : ProgState) ∧
    (render_u_ptrs (⟨[], [], [none]⟩ : ProgState)).2 = none :=
  ⟨rfl, rfl⟩

/-- C4 (amended): `add_element_u_ptr` accepts a null handle without
error, but render-time processing dereferences every stored handle
unconditionally, so any owned store containing a null handle makes
`render_u_ptrs` undefined behaviour (no skip, no raise). -/
theorem null_handle_accepted_but_deref (st : ProgState) (e : Option DrawingElement) :
    (add_element_u_ptr st e).1.drawing_u_ptrs = st.drawing_u_ptrs ++ [e] ∧
    (none ∈ st.drawing_u_ptrs → (render_u_ptrs st).2 = none) := by
  refine ⟨rfl, fun hn => ?_⟩
  simp [render_u_ptrs, traverse_u_none st.drawing_u_ptrs hn]

/-- Witness for the amended C4 at one concrete store. -/
theorem null_handle_accepted_but_deref_witness :
    (add_element_u_ptr (⟨[], [], [none]⟩ : ProgState)
        (some (DrawingElement.point 0 0))).1.drawing_u_ptrs =
      [none] ++ [some (DrawingElement.point 0 0)] ∧
    (render_u_ptrs (⟨[], [], [none]⟩ : ProgState)).2 = none :=
  ⟨(null_handle_accepted_but_deref ⟨[], [], [none]⟩
      (some (DrawingElement.point 0 0))).1,
   (null_handle_accepted_but_deref ⟨[], [], [none]⟩
      (some (DrawingElement.point 0 0))).2 (by simp)⟩

/-- C5 counterexample: a store holding a pointer to a live heap element;
after `clear_drawing_ptrs` the referent is gone from the free store, so
clearing does destroy (deallocate) the element it refers to. -/
theorem clear_frees_referent_counterexample :
    lookupAddr [(0, DrawingElement.point 1 2)] 0 = some (DrawingElement.point 1 2) ∧
    (clear_drawing_ptrs
        (⟨[(0, DrawingElement.point 1 2)], [some 0], []⟩ : ProgState)).1.heap = [] ∧
    lookupAddr (clear_drawing_ptrs
        (⟨[(0, DrawingElement.point 1 2)], [some 0], []⟩ : ProgState)).1.heap 0 = none :=
  ⟨rfl, rfl, rfl⟩

/-- C5 (amended): `clear_drawing_ptrs` empties the pointer list and
`delete`s every element its non-null pointers refer to (after the call
no such referent is still allocated); the unique-pointer store is left
untouched. -/
theorem clear_drawing_ptrs_deletes (st : ProgState) :
    (clear_drawing_ptrs st).1.drawing_ptrs = [] ∧
    (clear_drawing_ptrs st).1.drawing_u_ptrs = st.drawing_u_ptrs ∧
    (∀ a, some a ∈ st.drawing_ptrs →
      lookupAddr (clear_drawing_ptrs st).1.heap a = none) :=
  ⟨rfl, rfl, fun a ha => foldl_delete_freed st.drawing_ptrs st.heap a ha⟩

/-- Witness for the amended C5 at one concrete store. -/
theorem clear_drawing_ptrs_deletes_witness :
    (clear_drawing_ptrs
        (⟨[(0, DrawingElement.point 1 2)], [some 0], []⟩ : ProgState)).1.drawing_ptrs = [] ∧
    lookupAddr (clear_drawing_ptrs
        (⟨[(0, DrawingElement.point 1 2)], [some 0], []⟩ : ProgState)).1.heap 0 = none :=
  ⟨(clear_drawing_ptrs_deletes ⟨[(0, DrawingElement.point 1 2)], [some 0], []⟩).1,
   (clear_drawing_ptrs_deletes ⟨[(0, DrawingElement.point 1 2)], [some 0], []⟩).2.2 0
     (by simp)⟩

/-- C6: `clear_drawing_ptrs` is idempotent on the program state, and on
an already-empty pointer store it succeeds and changes nothing. -/
theorem clear_drawing_ptrs_idempotent (st : ProgState) :
    (clear_drawing_ptrs (clear_drawing_ptrs st).1).1 = (clear_drawing_ptrs st).1 ∧
    (st.drawing_ptrs = [] → (clear_drawing_ptrs st).1 = st) := by
  obtain ⟨h, dp, du⟩ := st
  refine ⟨rfl, fun hdp => ?_⟩
  change dp = [] at hdp
  subst hdp
  rfl

/-- Witness for C6 at the freshly constructed drawing. -/
theorem clear_drawing_ptrs_idempotent_witness :
    (clear_drawing_ptrs (clear_drawing_ptrs freshDrawing).1).1 =
      (clear_drawing_ptrs freshDrawing).1 ∧
    (clear_drawing_ptrs freshDrawing).1 = freshDrawing :=
  ⟨(clear_drawing_ptrs_idempotent freshDrawing).1,
   (clear_drawing_ptrs_idempotent freshDrawing).2 rfl⟩

/-- C8: `add_element_u_ptr` transfers exclusive ownership: the caller's
handle after the call is null (rendering it dereferences null), and the
store gains exactly that one handle at the back (moved, not
duplicated). -/
theorem add_element_u_ptr_moves (st : ProgState) (e : Option DrawingElement) :
    (add_element_u_ptr st e).2 = none ∧
    render_u_slot (add_element_u_ptr st e).2 = none ∧
    (add_element_u_ptr st e).1.drawing_u_ptrs = st.drawing_u_ptrs ++ [e] :=
  ⟨rfl, rfl, rfl⟩

/-- C9: rendering is read-only: `render_ptrs` and `render_u_ptrs` leave
the whole program state (both stores, contents and order) unchanged, so
running the same render twice gives identical output. -/
theorem render_read_only (st : ProgState) :
    (render_ptrs st).1 = st ∧ (render_u_ptrs st).1 = st ∧
    (render_ptrs ((render_ptrs st).1)).2 = (render_ptrs st).2 ∧
    (render_u_ptrs ((render_u_ptrs st).1)).2 = (render_u_ptrs st).2 :=
  ⟨rfl, rfl, rfl, rfl⟩

/-- C10: after `draw_u_ptrs`, whatever the prior state, the owned store
holds exactly Point(10,15), Point(35,22), Line(55,122,234,556),
Rectangle(3,194,34,200), in that order. -/
theorem draw_u_ptrs_resets (st : ProgState) :
    (draw_u_ptrs st).drawing_u_ptrs =
      [some (DrawingElement.point 10 15),
       some (DrawingElement.point 35 22),
       some (DrawingElement.line 55 122 234 556),
       some (DrawingElement.rectangle 3 194 34 200)] :=
  rfl
